import Mathlib

/-!
Shallow embedding of the Soren Python plugin SDK (`pysdk`): configuration
loading (`sorenv.py`), the subject registry, the plugin registrar
(`plugin.py`) and the event logger (`events.py`), together with theorems
settling the specification claims about them.

Python dictionaries carrying opaque JSON payloads are modelled as
association lists of strings; Python `None` is modelled by `Option`;
functions that may raise model the exception in an `Except` or as an
explicit field of their result.
-/

namespace PySdk

/-- Python `Dict[str, Any]` payloads (JSON UI/schema blobs, details), kept
opaque: the SDK never inspects their contents, only passes them through. -/
abbrev Dict := List (String × String)

/-- Python truthiness of an `Optional[str]`: `None` and `""` are falsy. -/
def pyTruthyStr : Option String → Bool
  | none => false
  | some s => s ≠ ""

/-- Python truthiness of an `Optional[Dict]`: `None` and `{}` are falsy. -/
def pyTruthyDict : Option Dict → Bool
  | none => false
  | some d => d ≠ []

/-- Python `a or b` on optional strings: `a` when truthy, else `b`. -/
def pyOrStr (a b : Option String) : Option String :=
  if pyTruthyStr a then a else b

/-- The environment variables read by `Config.__init__` (sorenv.py 23-27):
AGENT_URI, PLUGIN_ID, SOREN_AUTH_KEY, SOREN_EVENT_CHANNEL, SOREN_STORE.
`none` models an unset variable. -/
structure Env where
  agent_uri_var : Option String
  plugin_id_var : Option String
  soren_auth_key_var : Option String
  soren_event_channel_var : Option String
  soren_store_var : Option String
deriving DecidableEq

/-- `Config` (sorenv.py 12-27): resolved configuration fields. -/
structure Config where
  agent_uri : Option String
  plugin_id : Option String
  auth_key : Option String
  event_channel : Option String
  store_channel : Option String
deriving DecidableEq

/-- `Config.__init__` (sorenv.py 15-27): each field is the explicit argument
when truthy, else the corresponding environment variable. -/
def Config.init (env : Env) (agent_uri plugin_id auth_key event_channel store_channel : Option String) : Config :=
  { agent_uri := pyOrStr agent_uri env.agent_uri_var
    plugin_id := pyOrStr plugin_id env.plugin_id_var
    auth_key := pyOrStr auth_key env.soren_auth_key_var
    event_channel := pyOrStr event_channel env.soren_event_channel_var
    store_channel := pyOrStr store_channel env.soren_store_var }

/-- `SorenSDK` (sorenv.py 30-41); the transport connection itself is an
external collaborator and is not part of the embedded state. -/
structure SorenSDK where
  config : Config
deriving DecidableEq

/-- `SorenSDK.__init__` (sorenv.py 33-41): raises `ValueError` when the
resolved agent URI or plugin ID is falsy (absent or empty). -/
def SorenSDK.init (config : Config) : Except String SorenSDK :=
  if pyTruthyStr config.agent_uri = false then Except.error "agent URI is required"
  else if pyTruthyStr config.plugin_id = false then Except.error "plugin ID is required"
  else Except.ok { config := config }

/-- Whether a construction attempt succeeded. -/
def constructionOk : Except String SorenSDK → Bool
  | Except.ok _ => true
  | Except.error _ => false

/-- f-string interpolation of the optional plugin id: Python renders `None`
as the string "None". -/
def Config.plugin_id_str (c : Config) : String := c.plugin_id.getD "None"

/-- `SorenSDK.make_subject` (sorenv.py 87-89). -/
def SorenSDK.make_subject (sdk : SorenSDK) (action : String) : String :=
  "soren.v2." ++ sdk.config.plugin_id_str ++ "." ++ action

/-- `SorenSDK.make_settings_subject` (sorenv.py 91-93). -/
def SorenSDK.make_settings_subject (sdk : SorenSDK) : String :=
  "soren.v2." ++ sdk.config.plugin_id_str ++ ".@settings"

/-- `SorenSDK.make_actions_list_subject` (sorenv.py 95-97). -/
def SorenSDK.make_actions_list_subject (sdk : SorenSDK) : String :=
  "soren.v2." ++ sdk.config.plugin_id_str ++ ".@actions"

/-- `SorenSDK.make_intro_subject` (sorenv.py 99-101). -/
def SorenSDK.make_intro_subject (sdk : SorenSDK) : String :=
  "soren.v2." ++ sdk.config.plugin_id_str ++ ".@intro"

/-- `SorenSDK.make_action_cpu` (sorenv.py 103-105). -/
def SorenSDK.make_action_cpu (sdk : SorenSDK) (action : String) : String :=
  "soren.cpu." ++ sdk.config.plugin_id_str ++ "." ++ action

/-- `SorenSDK.make_job_subject` (sorenv.py 107-109). -/
def SorenSDK.make_job_subject (sdk : SorenSDK) (job_id job_update : String) : String :=
  "soren.cpu." ++ sdk.config.plugin_id_str ++ "." ++ job_id ++ "." ++ job_update

/-- `SorenSDK.make_form_subject` (sorenv.py 111-113). -/
def SorenSDK.make_form_subject (sdk : SorenSDK) (action : String) : String :=
  "soren.v2." ++ sdk.config.plugin_id_str ++ "." ++ action ++ ".@form"

/-- `SorenSDK.make_progress_subject` (sorenv.py 115-117). -/
def SorenSDK.make_progress_subject (sdk : SorenSDK) (job_id : String) : String :=
  "soren.cpu." ++ sdk.config.plugin_id_str ++ "." ++ job_id ++ ".*"

lemma string_eq_of_data_eq (a b : String) (h : a.data = b.data) : a = b := by
  cases a; cases b; simp_all

lemma string_append_left_cancel (s a b : String) (h : s ++ a = s ++ b) : a = b := by
  have hd : (s ++ a).data = (s ++ b).data := by rw [h]
  simp [String.data_append] at hd
  exact string_eq_of_data_eq a b hd

lemma string_append_right_cancel (a b t : String) (h : a ++ t = b ++ t) : a = b := by
  have hd : (a ++ t).data = (b ++ t).data := by rw [h]
  simp [String.data_append] at hd
  exact string_eq_of_data_eq a b hd

/-- C1: with namespace "soren", the subject registry produces exactly the
wire-contract strings: intro, settings, actions list, per-action form,
per-action execution, per-job command, and custom suffix subjects; in
particular a plugin with id "abc" has intro subject "soren.v2.abc.@intro". -/
theorem subject_registry_wire_contract (sdk : SorenSDK) (pid method jobID command suffix : String)
    (h : sdk.config.plugin_id = some pid) :
    sdk.make_intro_subject = "soren.v2." ++ pid ++ ".@intro" ∧
    sdk.make_settings_subject = "soren.v2." ++ pid ++ ".@settings" ∧
    sdk.make_actions_list_subject = "soren.v2." ++ pid ++ ".@actions" ∧
    sdk.make_form_subject method = "soren.v2." ++ pid ++ "." ++ method ++ ".@form" ∧
    sdk.make_action_cpu method = "soren.cpu." ++ pid ++ "." ++ method ∧
    sdk.make_job_subject jobID command = "soren.cpu." ++ pid ++ "." ++ jobID ++ "." ++ command ∧
    sdk.make_subject suffix = "soren.v2." ++ pid ++ "." ++ suffix ∧
    SorenSDK.make_intro_subject { config := { agent_uri := some "a", plugin_id := some "abc", auth_key := none, event_channel := none, store_channel := none } } = "soren.v2.abc.@intro" := by
  refine ⟨?_, ?_, ?_, ?_, ?_, ?_, ?_, ?_⟩ <;>
    simp [SorenSDK.make_intro_subject, SorenSDK.make_settings_subject,
      SorenSDK.make_actions_list_subject, SorenSDK.make_form_subject,
      SorenSDK.make_action_cpu, SorenSDK.make_job_subject, SorenSDK.make_subject,
      Config.plugin_id_str, h]

theorem subject_registry_wire_contract_witness :
    SorenSDK.make_intro_subject { config := { agent_uri := some "a", plugin_id := some "abc", auth_key := none, event_channel := none, store_channel := none } } = "soren.v2.abc.@intro" :=
  (subject_registry_wire_contract
    { config := { agent_uri := some "a", plugin_id := some "abc", auth_key := none, event_channel := none, store_channel := none } }
    "abc" "m" "j" "c" "s" rfl).1

/-- C8: `make_action_cpu` (the execute subject) and `make_form_subject` are
deterministic and, for a fixed SDK instance (hence fixed plugin id),
injective in the method string. -/
theorem execute_form_injective_in_method (sdk : SorenSDK) (m1 m2 : String) (hne : m1 ≠ m2) :
    sdk.make_action_cpu m1 ≠ sdk.make_action_cpu m2 ∧
    sdk.make_form_subject m1 ≠ sdk.make_form_subject m2 ∧
    (∀ a b : String, a = b → sdk.make_action_cpu a = sdk.make_action_cpu b) ∧
    (∀ a b : String, a = b → sdk.make_form_subject a = sdk.make_form_subject b) := by
  refine ⟨?_, ?_, ?_, ?_⟩
  · intro h
    exact hne (string_append_left_cancel _ m1 m2 h)
  · intro h
    have h2 : ("soren.v2." ++ sdk.config.plugin_id_str ++ "." ++ m1)
        = ("soren.v2." ++ sdk.config.plugin_id_str ++ "." ++ m2) :=
      string_append_right_cancel _ _ ".@form" h
    exact hne (string_append_left_cancel _ m1 m2 h2)
  · intro a b hab; rw [hab]
  · intro a b hab; rw [hab]

theorem execute_form_injective_in_method_witness :
    ("x" : String) ≠ "y" ∧
    SorenSDK.make_action_cpu { config := { agent_uri := some "a", plugin_id := some "p", auth_key := none, event_channel := none, store_channel := none } } "x"
      ≠ SorenSDK.make_action_cpu { config := { agent_uri := some "a", plugin_id := some "p", auth_key := none, event_channel := none, store_channel := none } } "y" :=
  ⟨by decide,
   (execute_form_injective_in_method
     { config := { agent_uri := some "a", plugin_id := some "p", auth_key := none, event_channel := none, store_channel := none } }
     "x" "y" (by decide)).1⟩

/-- C9: the registry is not jointly injective across roles: for every SDK
instance, job id and command, the execute subject of the dotted method
`jobID ++ "." ++ command` coincides with the job subject for
`(jobID, command)`, so an action method containing a dot collides with a
job-progress subject. -/
theorem execute_job_subject_collision (sdk : SorenSDK) (jobID command : String) :
    sdk.make_action_cpu (jobID ++ "." ++ command) = sdk.make_job_subject jobID command := by
  apply string_eq_of_data_eq
  simp [SorenSDK.make_action_cpu, SorenSDK.make_job_subject, String.data_append]

/-- `Requirements` (models.py 25-30); the handler is kept abstract in the
type parameter `H`, `none` modelling Python `None`. -/
structure Requirements (H : Type) where
  reply_to : String
  jsonui : Dict
  jsonschema : Dict
  handler : Option H
deriving DecidableEq

/-- `PluginIntro` (models.py 34-39). -/
structure PluginIntro (H : Type) where
  name : String
  author : String
  version : String
  requirements : Option (Requirements H)
deriving DecidableEq

/-- `Icon` (models.py 18-21). -/
structure Icon where
  ref : String
  icon : String
deriving DecidableEq

/-- `ActionFormBuilder` (models.py 43-46). -/
structure ActionFormBuilder where
  jsonui : Dict
  jsonschema : Dict
deriving DecidableEq

/-- `Action` (models.py 50-57). -/
structure Action (H : Type) where
  method : String
  title : String
  description : String
  icon : Icon
  form : Option ActionFormBuilder
  request_handler : Option H
deriving DecidableEq

/-- `Settings` (models.py 61-67). -/
structure Settings (H : Type) where
  jsonui : Dict
  jsonschema : Dict
  reply_to : String
  data : Option Dict
  handler : Option H
deriving DecidableEq

/-- Dataclass construction of `Settings` giving only `jsonui`/`jsonschema`,
the optional fields taking their declared defaults (models.py 65-67):
`reply_to = "_settings.config.submit"`, `data = None`, `handler = None`. -/
def Settings.mk_with_defaults (jsonui jsonschema : Dict) : Settings H :=
  { jsonui := jsonui
    jsonschema := jsonschema
    reply_to := "_settings.config.submit"
    data := none
    handler := none }

/-- `Frame` (models.py 71-74). -/
structure Frame where
  title : String
  content : String
deriving DecidableEq

/-- `JobProgress` (models.py 78-82). -/
structure JobProgress where
  progress : Int
  frame : Frame
  details : Option Dict
deriving DecidableEq

/-- `Command` (types.py 8-13). -/
inductive Command where
  | PROGRESS
  | STOP
  | CONTEXT_CURRENT
  | CONTEXT_PATH
deriving DecidableEq

/-- The string value of each `Command` member (types.py 10-13). -/
def Command.value : Command → String
  | .PROGRESS => "progress"
  | .STOP => "stop"
  | .CONTEXT_CURRENT => "context/current"
  | .CONTEXT_PATH => "context/path"

/-- `Plugin` state (plugin.py 21-26). -/
structure Plugin (H : Type) where
  sdk : SorenSDK
  intro : Option (PluginIntro H)
  settings : Option (Settings H)
  actions : List (Action H)
deriving DecidableEq

/-- `Plugin.set_intro` (plugin.py 28-36): stores the intro; mutates the
requirements handler only when `self.intro.requirements` and `handler` are
both truthy (a dataclass instance and a callable are truthy exactly when
they are not `None`). -/
def Plugin.set_intro (p : Plugin H) (intro : PluginIntro H) (handler : Option H) : Plugin H :=
  match intro.requirements, handler with
  | some req, some h =>
      { p with intro := some { intro with requirements := some { req with handler := some h } } }
  | _, _ => { p with intro := some intro }

/-- The kind of responder bound on a subscribed subject by the registrar
(plugin.py 70-110); `has_handler` records whether a user handler was
attached when the responder was created. -/
inductive Responder where
  | intro_resp
  | requirements_resp (has_handler : Bool)
deriving DecidableEq

/-- Whether an inbound message to this responder is answered with the fixed
payload `{"status":"not implemented"}` (req_callback, plugin.py 96-105):
only a requirements responder without a user handler replies so. -/
def Responder.replies_not_implemented : Responder → Bool
  | .requirements_resp has_handler => !has_handler
  | _ => false

/-- `Plugin.intro_handler` (plugin.py 63-111), modelled by the list of
subscriptions it binds, in order: nothing when no intro is set; the intro
subject always; additionally the requirements reply subject when
`self.intro.requirements` is truthy and its `reply_to` is a truthy string
(plugin.py 93). -/
def Plugin.intro_handler_subs (p : Plugin H) : List (String × Responder) :=
  match p.intro with
  | none => []
  | some intro =>
    match intro.requirements with
    | some req =>
        if req.reply_to ≠ "" then
          [(p.sdk.make_intro_subject, Responder.intro_resp),
           (p.sdk.make_subject req.reply_to, Responder.requirements_resp req.handler.isSome)]
        else
          [(p.sdk.make_intro_subject, Responder.intro_resp)]
    | none => [(p.sdk.make_intro_subject, Responder.intro_resp)]

/-- Whether any bound subscription would answer a message with the
"not implemented" reply. -/
def has_not_implemented_responder (subs : List (String × Responder)) : Bool :=
  subs.any fun sr => sr.2.replies_not_implemented

/-- A concrete SDK instance used for counterexamples and witnesses. -/
def sdk0 : SorenSDK :=
  { config := { agent_uri := some "localhost:4222", plugin_id := some "p0", auth_key := none, event_channel := none, store_channel := none } }

/-- A concrete plugin over `sdk0` with nothing registered. -/
def plugin0 : Plugin Nat :=
  { sdk := sdk0, intro := none, settings := none, actions := [] }

/-- A concrete intro whose requirements field is absent. -/
def intro_no_req : PluginIntro Nat :=
  { name := "n", author := "a", version := "1", requirements := none }

/-- C10 counterexample: setting `intro_no_req` (requirements absent) with a
non-None handler stores the intro and discards the handler, but — contrary
to the claim — no bound subscription replies "not implemented": the
requirements subscription is not bound at all, so a requirements-submit
message would get no reply. -/
theorem set_intro_no_requirements_counterexample :
    (plugin0.set_intro intro_no_req (some 7)).intro = some intro_no_req ∧
    (plugin0.set_intro intro_no_req (some 7)).intro_handler_subs
      = [(sdk0.make_intro_subject, Responder.intro_resp)] ∧
    has_not_implemented_responder (plugin0.set_intro intro_no_req (some 7)).intro_handler_subs
      = false := by
  refine ⟨rfl, rfl, rfl⟩

/-- C10 (amended): when `intro.requirements` is absent, `set_intro` with a
non-None handler just stores the intro — the handler argument is silently
discarded, no error is raised — and `intro_handler` then binds only the
intro subscription: no requirements subscription exists, so a later
requirements-submit message receives no reply at all (in particular, not
the "not implemented" reply). -/
theorem set_intro_discards_handler (p : Plugin H) (intro : PluginIntro H) (h : H)
    (hreq : intro.requirements = none) :
    p.set_intro intro (some h) = { p with intro := some intro } ∧
    (p.set_intro intro (some h)).intro_handler_subs
      = [(p.sdk.make_intro_subject, Responder.intro_resp)] ∧
    has_not_implemented_responder (p.set_intro intro (some h)).intro_handler_subs = false := by
  have hset : p.set_intro intro (some h) = { p with intro := some intro } := by
    unfold Plugin.set_intro
    rw [hreq]
  refine ⟨hset, ?_, ?_⟩ <;>
    simp [hset, Plugin.intro_handler_subs, hreq, has_not_implemented_responder,
      Responder.replies_not_implemented]

theorem set_intro_discards_handler_witness :
    plugin0.set_intro intro_no_req (some 3) = { plugin0 with intro := some intro_no_req } ∧
    (plugin0.set_intro intro_no_req (some 3)).intro_handler_subs
      = [(plugin0.sdk.make_intro_subject, Responder.intro_resp)] ∧
    has_not_implemented_responder (plugin0.set_intro intro_no_req (some 3)).intro_handler_subs = false :=
  set_intro_discards_handler plugin0 intro_no_req 3 rfl

/-- The three bind phases of `Plugin.start` (plugin.py 56-61). -/
inductive Phase where
  | intro_phase
  | settings_phase
  | actions_phase
deriving DecidableEq

/-- `Plugin.start` (plugin.py 58-60) sequentially awaits `intro_handler()`,
`settings_handler()` and `actions_handler()` with no exception handling.
`fails ph` models whether the binds of phase `ph` raise (`some e`) or
complete (`none`); the result is the list of phases whose handler was
invoked, in order, paired with the exception propagated to the caller of
`start()`, if any — an exception in an earlier `await` aborts the method
before the later handler calls. -/
def start_trace (fails : Phase → Option String) : List Phase × Option String :=
  match fails Phase.intro_phase with
  | some e => ([Phase.intro_phase], some e)
  | none =>
    match fails Phase.settings_phase with
    | some e => ([Phase.intro_phase, Phase.settings_phase], some e)
    | none =>
      match fails Phase.actions_phase with
      | some e => ([Phase.intro_phase, Phase.settings_phase, Phase.actions_phase], some e)
      | none => ([Phase.intro_phase, Phase.settings_phase, Phase.actions_phase], none)

/-- A failure oracle where only the intro bind phase raises. -/
def fail_intro_only : Phase → Option String
  | Phase.intro_phase => some "bind failed"
  | _ => none

/-- C2 counterexample: when the intro bind phase fails, the settings and
actions phases are never attempted — the binds are not independent, contrary
to the claim — although the failure is indeed surfaced to the caller. -/
theorem start_bind_independence_counterexample :
    (start_trace fail_intro_only).1 = [Phase.intro_phase] ∧
    Phase.settings_phase ∉ (start_trace fail_intro_only).1 ∧
    Phase.actions_phase ∉ (start_trace fail_intro_only).1 ∧
    (start_trace fail_intro_only).2 = some "bind failed" := by
  decide

/-- C2 (amended): `start()` performs the intro, settings and actions bind
phases in that order, but sequentially and without isolation: the first
phase whose binds raise aborts `start()` — later phases are not attempted —
and that first failure propagates to the caller; only when no phase fails
are all three phases attempted, in order, with no error surfaced. -/
theorem start_phases_sequential (fails : Phase → Option String) :
    (fails Phase.intro_phase = none → fails Phase.settings_phase = none →
      fails Phase.actions_phase = none →
      start_trace fails = ([Phase.intro_phase, Phase.settings_phase, Phase.actions_phase], none)) ∧
    (∀ e, fails Phase.intro_phase = some e →
      start_trace fails = ([Phase.intro_phase], some e)) ∧
    (∀ e, fails Phase.intro_phase = none → fails Phase.settings_phase = some e →
      start_trace fails = ([Phase.intro_phase, Phase.settings_phase], some e)) ∧
    (∀ e, fails Phase.intro_phase = none → fails Phase.settings_phase = none →
      fails Phase.actions_phase = some e →
      start_trace fails = ([Phase.intro_phase, Phase.settings_phase, Phase.actions_phase], some e)) := by
  refine ⟨?_, ?_, ?_, ?_⟩
  · intro h1 h2 h3; simp [start_trace, h1, h2, h3]
  · intro e h1; simp [start_trace, h1]
  · intro e h1 h2; simp [start_trace, h1, h2]
  · intro e h1 h2 h3; simp [start_trace, h1, h2, h3]

theorem start_phases_sequential_witness :
    start_trace fail_intro_only = ([Phase.intro_phase], some "bind failed") :=
  (start_phases_sequential fail_intro_only).2.1 "bind failed" rfl

/-- The JSON object sent as reply on the settings-show subject
(settings_callback, plugin.py 118-136) when settings are registered. -/
structure SettingsShowBody where
  replyTo : String
  jsonui : Dict
  jsonschema : Dict
  data : Option Dict
deriving DecidableEq

/-- Body built by settings_callback (plugin.py 124-135) for registered
settings: `replyTo` is `self.settings.reply_to` when truthy, else the
default "_settings.config.submit"; `data` is included only when truthy. -/
def settings_show_body (s : Settings H) : SettingsShowBody :=
  let reply_to := if s.reply_to ≠ "" then s.reply_to else "_settings.config.submit"
  { replyTo := reply_to
    jsonui := s.jsonui
    jsonschema := s.jsonschema
    data := if pyTruthyDict s.data then s.data else none }

/-- Subject of the settings-submit subscription (plugin.py 145-148): the
same truthiness-based resolution of `reply_to`, passed to `make_subject`. -/
def settings_submit_subject (sdk : SorenSDK) (s : Settings H) : String :=
  let reply_to := if s.reply_to ≠ "" then s.reply_to else "_settings.config.submit"
  sdk.make_subject reply_to

/-- C7: the settings-submit reply subject resolved for `reply_to = ""` and
for `reply_to` left unset (the dataclass default) coincide, both equal to
the fixed default "_settings.config.submit"; the same resolution is used in
the settings-show reply body and for the submit subscription subject. -/
theorem settings_reply_to_default_resolution (sdk : SorenSDK) (s : Settings H) (ui js : Dict) :
    (settings_show_body { s with reply_to := "" }).replyTo = "_settings.config.submit" ∧
    (settings_show_body (Settings.mk_with_defaults ui js : Settings H)).replyTo
      = "_settings.config.submit" ∧
    settings_submit_subject sdk { s with reply_to := "" }
      = sdk.make_subject "_settings.config.submit" ∧
    settings_submit_subject sdk (Settings.mk_with_defaults ui js : Settings H)
      = sdk.make_subject "_settings.config.submit" ∧
    (∀ s2 : Settings H, settings_submit_subject sdk s2
      = sdk.make_subject (settings_show_body s2).replyTo) := by
  refine ⟨rfl, rfl, rfl, rfl, fun s2 => rfl⟩

/-- Outcome of one `conn.request` attempt inside `Plugin.progress`
(plugin.py 262): a reply message, a `NoRespondersError`, or any other
exception. -/
inductive ReqResult where
  | ok (data : String)
  | no_responders (e : String)
  | other_error (e : String)
deriving DecidableEq

/-- Value returned by `Plugin.progress` to its caller. `msg` models the
reply message, `err_value` models `return e` — the exception object
returned as an ordinary value, never raised — and `none_return` models
Python falling off the end of the function (returning `None`). -/
inductive PResult where
  | msg (data : String)
  | err_value (e : String)
  | none_return
deriving DecidableEq

/-- Observable trace of the retry loop of `Plugin.progress`
(plugin.py 259-279): the 0-based attempt indices at which a request was
issued, at which `logger.warning` fired and at which `logger.error` fired,
the durations of the `asyncio.sleep` calls, and the returned value. -/
structure PTrace where
  requests : List Nat
  warn_attempts : List Nat
  error_attempts : List Nat
  sleep_seconds : List Nat
  result : PResult
deriving DecidableEq

/-- `max_retries` (plugin.py 259). -/
def max_retries : Nat := 3

/-- The `for attempt in range(max_retries)` loop of `Plugin.progress`
(plugin.py 260-279), one step per pending attempt index: on success the
reply is returned; on `NoRespondersError` with attempts left, a warning is
logged only from the second attempt on (`attempt >= 1`), then the loop
sleeps 1 second and retries; on the last attempt the failure is logged as
an error and the exception is returned as a value; any other exception is
logged as an error and returned as a value. -/
def progress_loop (oracle : Nat → ReqResult) : List Nat → PTrace → PTrace
  | [], tr => { tr with result := PResult.none_return }
  | attempt :: rest, tr =>
    let tr1 := { tr with requests := tr.requests ++ [attempt] }
    match oracle attempt with
    | ReqResult.ok d => { tr1 with result := PResult.msg d }
    | ReqResult.no_responders e =>
      if attempt < max_retries - 1 then
        let tr2 := if 1 ≤ attempt
          then { tr1 with warn_attempts := tr1.warn_attempts ++ [attempt] }
          else tr1
        progress_loop oracle rest { tr2 with sleep_seconds := tr2.sleep_seconds ++ [1] }
      else
        { tr1 with error_attempts := tr1.error_attempts ++ [attempt],
                   result := PResult.err_value e }
    | ReqResult.other_error e =>
      { tr1 with error_attempts := tr1.error_attempts ++ [attempt],
                 result := PResult.err_value e }

/-- The whole retry loop of `Plugin.progress`, started on attempt indices
`0, 1, 2` with an empty trace. -/
def progress_run (oracle : Nat → ReqResult) : PTrace :=
  progress_loop oracle (List.range max_retries)
    { requests := [], warn_attempts := [], error_attempts := [],
      sleep_seconds := [], result := PResult.none_return }

/-- The JSON body built by `Plugin.progress` (plugin.py 248-258): progress,
frame title/content, and the details dict only when truthy. -/
structure JobBody where
  progress : Int
  frame_title : String
  frame_content : String
  details : Option Dict
deriving DecidableEq

/-- Encoding of a `JobProgress` into the request body (plugin.py 248-256). -/
def job_progress_body (data : JobProgress) : JobBody :=
  { progress := data.progress
    frame_title := data.frame.title
    frame_content := data.frame.content
    details := if pyTruthyDict data.details then data.details else none }

/-- One call to `Plugin.progress`: the subject requested, the encoded body,
and the trace of the retry loop. -/
structure ProgressCall where
  subject : String
  body : JobBody
  trace : PTrace
deriving DecidableEq

/-- `Plugin.progress` (plugin.py 239-279): builds the job subject from
`(plugin id, job_id, command.value)`, encodes the body, and runs the retry
loop against the transport oracle. -/
def Plugin.progress (p : Plugin H) (oracle : Nat → ReqResult)
    (job_id : String) (command : Command) (data : JobProgress) : ProgressCall :=
  { subject := p.sdk.make_job_subject job_id command.value
    body := job_progress_body data
    trace := progress_run oracle }

/-- `Plugin.done` (plugin.py 236-237). -/
def Plugin.done (p : Plugin H) (oracle : Nat → ReqResult)
    (job_id : String) (data : Dict) : ProgressCall :=
  p.progress oracle job_id Command.PROGRESS
    { progress := 100
      frame := { title := "Completed", content := "Job completed successfully" }
      details := some data }

/-- A transport oracle failing every attempt with `NoRespondersError`. -/
def all_no_responders : Nat → ReqResult :=
  fun _ => ReqResult.no_responders "no responders available for request"

/-- C3 counterexample: under three consecutive no-responder failures the
loop warns only at the second attempt (0-based index 1) — the third
attempt's failure is logged as an error, not a warning — contradicting the
claim that the failures of attempts 2 and 3 both produce warning logs. -/
theorem progress_retry_warning_counterexample :
    (progress_run all_no_responders).warn_attempts = [1] ∧
    (2 : Nat) ∉ (progress_run all_no_responders).warn_attempts ∧
    (progress_run all_no_responders).error_attempts = [2] := by
  decide

/-- C3 (amended): when the transport fails every attempt with a
no-responder error, `progress` issues exactly 3 request attempts (indices
0, 1, 2) with a 1-second delay after each of the first two (exactly 2
delayed retries); the first attempt's failure produces no warning log, the
second attempt's failure does, the third attempt's failure is logged as an
error (not a warning), and the final failure is returned to the caller as a
value, never thrown. -/
theorem progress_retry_policy (oracle : Nat → ReqResult) (e : String)
    (h : ∀ n, oracle n = ReqResult.no_responders e) :
    (progress_run oracle).requests = [0, 1, 2] ∧
    (progress_run oracle).sleep_seconds = [1, 1] ∧
    (progress_run oracle).warn_attempts = [1] ∧
    (progress_run oracle).error_attempts = [2] ∧
    (progress_run oracle).result = PResult.err_value e := by
  have hfun : oracle = fun _ => ReqResult.no_responders e := funext h
  subst hfun
  exact ⟨rfl, rfl, rfl, rfl, rfl⟩

theorem progress_retry_policy_witness :
    (progress_run all_no_responders).requests = [0, 1, 2] ∧
    (progress_run all_no_responders).sleep_seconds = [1, 1] ∧
    (progress_run all_no_responders).warn_attempts = [1] ∧
    (progress_run all_no_responders).error_attempts = [2] ∧
    (progress_run all_no_responders).result
      = PResult.err_value "no responders available for request" :=
  progress_retry_policy all_no_responders "no responders available for request"
    (fun _ => rfl)

/-- C4: `done(jobID, details)` performs exactly the call
`progress(jobID, PROGRESS, JobProgress(progress=100,
frame=Frame("Completed", "Job completed successfully"), details=details))`
and returns its result: the two are equal as operations. -/
theorem done_equals_progress_completed (p : Plugin H) (oracle : Nat → ReqResult)
    (job_id : String) (details : Dict) :
    p.done oracle job_id details
      = p.progress oracle job_id Command.PROGRESS
          { progress := 100
            frame := { title := "Completed", content := "Job completed successfully" }
            details := some details } :=
  rfl

/-- `EventType` (types.py 16-18). -/
inductive EventType where
  | LOG
deriving DecidableEq

/-- The string value of each `EventType` member. -/
def EventType.value : EventType → String
  | .LOG => "log"

/-- `LogLevel` (types.py 21-26). -/
inductive LogLevel where
  | DEBUG
  | INFO
  | WARN
  | ERROR
deriving DecidableEq

/-- The string value of each `LogLevel` member. -/
def LogLevel.value : LogLevel → String
  | .DEBUG => "debug"
  | .INFO => "info"
  | .WARN => "warn"
  | .ERROR => "error"

/-- `PluginEvent` (models.py 102-109). -/
structure PluginEvent where
  event : EventType
  level : LogLevel
  source : String
  message : String
  timestamp : Int
  details : Option Dict
deriving DecidableEq

/-- The dictionary serialized for one event (events.py 59-67): the enum
string values, and `details` only when truthy. -/
structure EventDict where
  event : String
  level : String
  source : String
  message : String
  timestamp : Int
  details : Option Dict
deriving DecidableEq

/-- Encoding of one `PluginEvent` (events.py 59-67). -/
def encode_event (e : PluginEvent) : EventDict :=
  { event := e.event.value
    level := e.level.value
    source := e.source
    message := e.message
    timestamp := e.timestamp
    details := if pyTruthyDict e.details then e.details else none }

/-- Parsed shape of the reply body to an event request (events.py 79-87). -/
inductive RespBody where
  | json_obj (result : Option String)
  | json_non_obj
  | not_json
deriving DecidableEq

/-- Outcome of the `conn.request` call for an event send (events.py 77):
either a reply whose body may be empty, or a raised exception (timeout,
no responders, connection failure, missing connection, ...). -/
inductive EventReqOutcome where
  | reply (data : Option RespBody)
  | raised (e : String)
deriving DecidableEq

/-- Observable behavior of one `send_event` call: the transport requests
issued (subject and serialized one-element event array), the warning lines
printed, and the exception propagated to the caller, if any. -/
structure SendResult where
  calls : List (String × List EventDict)
  printed : List String
  raised : Option String
deriving DecidableEq

/-- `EventLogger.send_event` (events.py 53-90): returns immediately with no
transport call when the event channel is falsy; otherwise issues one
request to `<eventChannel>.<pluginID>.log` and swallows every failure — a
raised transport exception is caught by the outer `except Exception`
(printing a warning), an unparseable body is caught by the inner
`except json.JSONDecodeError`, a parsed body that is not a dict makes
`response.get` raise an `AttributeError` which the outer handler also
catches, and a non-"OK" result only prints a warning. No branch re-raises. -/
def EventLogger.send_event (sdk : SorenSDK) (outcome : EventReqOutcome)
    (event : PluginEvent) : SendResult :=
  if pyTruthyStr sdk.config.event_channel = false then
    { calls := [], printed := [], raised := none }
  else
    let subject := sdk.config.event_channel.getD "None" ++ "." ++ sdk.config.plugin_id_str ++ ".log"
    let call := (subject, [encode_event event])
    match outcome with
    | EventReqOutcome.raised e =>
        { calls := [call]
          printed := ["Warning: failed to send event: " ++ e]
          raised := none }
    | EventReqOutcome.reply none =>
        { calls := [call], printed := [], raised := none }
    | EventReqOutcome.reply (some RespBody.not_json) =>
        { calls := [call], printed := [], raised := none }
    | EventReqOutcome.reply (some RespBody.json_non_obj) =>
        { calls := [call]
          printed := ["Warning: failed to send event: AttributeError"]
          raised := none }
    | EventReqOutcome.reply (some (RespBody.json_obj result)) =>
        if result ≠ some "OK" then
          { calls := [call]
            printed := ["Warning: event sending response: " ++ result.getD "None"]
            raised := none }
        else
          { calls := [call], printed := [], raised := none }

/-- `EventLogger.log` (events.py 19-35): builds a LOG `PluginEvent` with
source `"<pluginID> - <source>"` and the current time, then hands it to
`send_event`. -/
def EventLogger.log (sdk : SorenSDK) (outcome : EventReqOutcome) (now : Int)
    (source : String) (level : LogLevel) (message : String)
    (details : Option Dict) : SendResult :=
  EventLogger.send_event sdk outcome
    { event := EventType.LOG
      level := level
      source := sdk.config.plugin_id_str ++ " - " ++ source
      message := message
      timestamp := now
      details := details }

/-- C5: event sending never propagates an error: `send_event` (and hence
`log`) always returns with `raised = none`, for every channel configuration
and every transport outcome (raised exception, empty reply, non-JSON body,
non-dict JSON body, non-OK result); and when no event channel is
configured, `log` and `send_event` issue zero transport calls. -/
theorem send_event_never_raises (sdk : SorenSDK) (outcome : EventReqOutcome)
    (event : PluginEvent) (now : Int) (source : String) (level : LogLevel)
    (message : String) (details : Option Dict) :
    (EventLogger.send_event sdk outcome event).raised = none ∧
    (EventLogger.log sdk outcome now source level message details).raised = none ∧
    (pyTruthyStr sdk.config.event_channel = false →
      (EventLogger.send_event sdk outcome event).calls = [] ∧
      EventLogger.log sdk outcome now source level message details
        = { calls := [], printed := [], raised := none }) := by
  have hraised : ∀ ev : PluginEvent, (EventLogger.send_event sdk outcome ev).raised = none := by
    intro ev
    unfold EventLogger.send_event
    rcases htr : pyTruthyStr sdk.config.event_channel with _ | _
    · simp
    · simp only [htr]
      rcases outcome with (_ | body) | e
      · simp
      · rcases body with result | _ | _
        · by_cases hres : result = some "OK" <;> simp [hres]
        · simp
        · simp
      · simp
  refine ⟨hraised _, hraised _, ?_⟩
  intro hfalse
  constructor
  · unfold EventLogger.send_event
    simp [hfalse]
  · unfold EventLogger.log EventLogger.send_event
    simp [hfalse]

theorem send_event_never_raises_witness :
    (EventLogger.send_event sdk0 (EventReqOutcome.raised "timeout")
        { event := EventType.LOG, level := LogLevel.INFO, source := "s",
          message := "m", timestamp := 0, details := none }).raised = none ∧
    (EventLogger.log sdk0 (EventReqOutcome.raised "timeout") 0 "s" LogLevel.INFO "m" none).raised
      = none ∧
    (pyTruthyStr sdk0.config.event_channel = false →
      (EventLogger.send_event sdk0 (EventReqOutcome.raised "timeout")
          { event := EventType.LOG, level := LogLevel.INFO, source := "s",
            message := "m", timestamp := 0, details := none }).calls = [] ∧
      EventLogger.log sdk0 (EventReqOutcome.raised "timeout") 0 "s" LogLevel.INFO "m" none
        = { calls := [], printed := [], raised := none }) :=
  send_event_never_raises sdk0 (EventReqOutcome.raised "timeout")
    { event := EventType.LOG, level := LogLevel.INFO, source := "s",
      message := "m", timestamp := 0, details := none } 0 "s" LogLevel.INFO "m" none

/-- C6: constructing the SDK succeeds exactly when both the resolved agent
URI and the resolved plugin ID are truthy (present and non-empty); each
field resolves from the explicit argument when truthy, else from the
environment; and an optional string is falsy exactly when it is absent or
the empty string. -/
theorem sdk_construction_validation (env : Env)
    (agent_uri plugin_id auth_key event_channel store_channel : Option String) :
    (constructionOk (SorenSDK.init (Config.init env agent_uri plugin_id auth_key event_channel store_channel)) = true ↔
      pyTruthyStr (Config.init env agent_uri plugin_id auth_key event_channel store_channel).agent_uri = true ∧
      pyTruthyStr (Config.init env agent_uri plugin_id auth_key event_channel store_channel).plugin_id = true) ∧
    (Config.init env agent_uri plugin_id auth_key event_channel store_channel).agent_uri
      = pyOrStr agent_uri env.agent_uri_var ∧
    (Config.init env agent_uri plugin_id auth_key event_channel store_channel).plugin_id
      = pyOrStr plugin_id env.plugin_id_var ∧
    (∀ o : Option String, pyTruthyStr o = false ↔ (o = none ∨ o = some "")) := by
  refine ⟨?_, rfl, rfl, ?_⟩
  · unfold SorenSDK.init constructionOk
    rcases h1 : pyTruthyStr (Config.init env agent_uri plugin_id auth_key event_channel store_channel).agent_uri with _ | _ <;>
      rcases h2 : pyTruthyStr (Config.init env agent_uri plugin_id auth_key event_channel store_channel).plugin_id with _ | _ <;>
      simp [h1, h2]
  · intro o
    rcases o with _ | s
    · simp [pyTruthyStr]
    · rcases hs : s == "" with _ | _ <;> simp_all [pyTruthyStr]

end PySdk
